import Mathlib

/-!
Shallow embedding of the printer discovery and transmission layer of
`src/frontend/src-tauri/src/main.rs` (Tauri desktop application).

The Rust code talks to the operating system (serial-port enumeration and
opening, the Windows print spooler, PowerShell child processes, the file
system).  Every OS interaction is modelled by an explicit parameter
describing the outcome the OS would report, and each modelled command
additionally returns the trace of OS calls it performed, so that claims
about which calls happen on which paths (cleanup, early exits) are
statements about the trace.  Machine strings are Lean `String`s; byte
counts are `Nat`.
-/

namespace Booking

/-- One element of the vector returned by `serialport::available_ports()`.
The code only reads the `port_name` field, so only that field is kept. -/
structure SerialPortInfo where
  port_name : String
  deriving DecidableEq

/-- `list_printers` (main.rs lines 61-86): maps the OS serial-port query to
the list of port names; on a query error it logs and returns an empty
vector.  The `query` parameter is the `serialport::available_ports()`
outcome. -/
def list_printers (query : Except String (List SerialPortInfo)) : List String :=
  match query with
  | .ok ports =>
      let port_names := ports.map (fun p => p.port_name)
      if port_names.isEmpty then [] else port_names
  | .error _ => []

/-- `serialport::DataBits` (only the value the code uses matters). -/
inductive DataBits
  | five | six | seven | eight
  deriving DecidableEq

/-- `serialport::Parity`. -/
inductive Parity
  | none | odd | even
  deriving DecidableEq

/-- `serialport::StopBits`. -/
inductive StopBits
  | one | two
  deriving DecidableEq

/-- `serialport::FlowControl`. -/
inductive FlowControl
  | none | software | hardware
  deriving DecidableEq

/-- The settings a `serialport` builder chain accumulates before `.open()`. -/
structure SerialSettings where
  path : String
  baud_rate : Nat
  data_bits : DataBits
  parity : Parity
  stop_bits : StopBits
  flow_control : FlowControl
  timeout_ms : Nat
  deriving DecidableEq

/-- The builder chain of `test_printer_connection` (main.rs lines 451-457):
`serialport::new(&port, 9600).data_bits(Eight).parity(None).stop_bits(One)
.flow_control(None).timeout(Duration::from_millis(1000))`. -/
def probeSettings (port : String) : SerialSettings :=
  { path := port
    baud_rate := 9600
    data_bits := DataBits.eight
    parity := Parity.none
    stop_bits := StopBits.one
    flow_control := FlowControl.none
    timeout_ms := 1000 }

/-- OS-level serial calls a command can perform, for effect traces. -/
inductive SerialOp
  | openOp (settings : SerialSettings)
  | writeOp (bytes : List Nat)
  | closeOp
  deriving DecidableEq

/-- The error string `test_printer_connection` builds on a failed open
(main.rs line 468); `e` stands for the Debug rendering of the OS error. -/
def connectErrMsg (port e : String) : String :=
  "Failed to connect to printer on port " ++ port ++ ": " ++ e

/-- `test_printer_connection` (main.rs lines 446-471).  `osOpen` is the
outcome of `.open()` for given settings.  On success the opened handle is
dropped at the end of the match arm (scoped release), modelled by the
`closeOp` trace entry; nothing is ever written. -/
def test_printer_connection (port : String)
    (osOpen : SerialSettings → Except String Unit) :
    Except String Bool × List SerialOp :=
  match osOpen (probeSettings port) with
  | .ok _ => (.ok true, [.openOp (probeSettings port), .closeOp])
  | .error e =>
      (.error (connectErrMsg port e), [.openOp (probeSettings port)])

/-- Boolean substring test: `needle` occurs contiguously in `hay`. -/
def strContains (hay needle : String) : Bool :=
  decide (needle.data <:+: hay.data)

/-- The six winspool steps of `print_ticket` (main.rs lines 203-283). -/
inductive SpoolStep
  | openP | startDoc | startPage | write | endPage | endDoc
  deriving DecidableEq

/-- Trace entries: the winspool API calls `print_ticket` performs, cleanup
calls included.  `writePrinter` records the byte length handed to the API. -/
inductive SpoolOp
  | openPrinter
  | startDocPrinter
  | startPagePrinter
  | writePrinter (len : Nat)
  | endPagePrinter
  | endDocPrinter
  | closePrinter
  deriving DecidableEq

/-- Outcomes the OS reports to `print_ticket`: whether each API call
returns nonzero, the `GetLastError` value after each failing call, and the
`BytesWritten` out-parameter filled by `WritePrinter`. -/
structure SpoolEnv where
  ok : SpoolStep → Bool
  errCode : SpoolStep → Nat
  bytesWritten : Nat

/-- `print_ticket`, Windows cfg block (main.rs lines 196-283): open the
named printer, start a RAW document, start a page, `WritePrinter` the
UTF-8 bytes of `ticket_data`, end page, end document, close.  Each branch
mirrors the source: on a zero return the function formats the error with
`GetLastError`, closes whatever was opened, and returns.  The second
component is the trace of API calls performed, in order.  Note the source
checks only `WritePrinter`'s boolean result; the `bytes_written`
out-parameter is never compared to the payload length. -/
def print_ticket (ticket_data printer_name : String) (env : SpoolEnv) :
    Except String Unit × List SpoolOp :=
  let len := ticket_data.utf8ByteSize
  if env.ok .openP = false then
    (.error ("Failed to open printer '" ++ printer_name ++ "'. Error code: " ++
        toString (env.errCode .openP)),
     [.openPrinter])
  else if env.ok .startDoc = false then
    (.error ("Failed to start document. Error code: " ++
        toString (env.errCode .startDoc)),
     [.openPrinter, .startDocPrinter, .closePrinter])
  else if env.ok .startPage = false then
    (.error ("Failed to start page. Error code: " ++
        toString (env.errCode .startPage)),
     [.openPrinter, .startDocPrinter, .startPagePrinter, .endDocPrinter,
      .closePrinter])
  else if env.ok .write = false then
    (.error ("Failed to write to printer. Error code: " ++
        toString (env.errCode .write)),
     [.openPrinter, .startDocPrinter, .startPagePrinter, .writePrinter len,
      .endPagePrinter, .endDocPrinter, .closePrinter])
  else if env.ok .endPage = false then
    (.error ("Failed to end page. Error code: " ++
        toString (env.errCode .endPage)),
     [.openPrinter, .startDocPrinter, .startPagePrinter, .writePrinter len,
      .endPagePrinter, .endDocPrinter, .closePrinter])
  else if env.ok .endDoc = false then
    (.error ("Failed to end document. Error code: " ++
        toString (env.errCode .endDoc)),
     [.openPrinter, .startDocPrinter, .startPagePrinter, .writePrinter len,
      .endPagePrinter, .endDocPrinter, .closePrinter])
  else
    (.ok (),
     [.openPrinter, .startDocPrinter, .startPagePrinter, .writePrinter len,
      .endPagePrinter, .endDocPrinter, .closePrinter])

/-- `print_ticket`, non-Windows cfg block (main.rs lines 286-289): an
immediate platform-mismatch error, no OS call of any kind. -/
def print_ticket_nonwindows (ticket_data printer_name : String) :
    Except String Unit × List SpoolOp :=
  (.error "Printing is only supported on Windows", [])

/-- The first of the six spooler steps the OS fails, if any (derived from
the spec's step ordering, for comparison with `print_ticket`). -/
def firstFailure (env : SpoolEnv) : Option SpoolStep :=
  if env.ok .openP = false then some .openP
  else if env.ok .startDoc = false then some .startDoc
  else if env.ok .startPage = false then some .startPage
  else if env.ok .write = false then some .write
  else if env.ok .endPage = false then some .endPage
  else if env.ok .endDoc = false then some .endDoc
  else none

/-- The error text `print_ticket` emits for a failing step: it names the
step and carries that step's OS error code. -/
def stepMsg (printer_name : String) (env : SpoolEnv) : SpoolStep → String
  | .openP =>
      "Failed to open printer '" ++ printer_name ++ "'. Error code: " ++
        toString (env.errCode .openP)
  | .startDoc =>
      "Failed to start document. Error code: " ++ toString (env.errCode .startDoc)
  | .startPage =>
      "Failed to start page. Error code: " ++ toString (env.errCode .startPage)
  | .write =>
      "Failed to write to printer. Error code: " ++ toString (env.errCode .write)
  | .endPage =>
      "Failed to end page. Error code: " ++ toString (env.errCode .endPage)
  | .endDoc =>
      "Failed to end document. Error code: " ++ toString (env.errCode .endDoc)

/-- Outcome the spec prescribes for the spooler path: success when all six
steps succeed, otherwise the first failing step's error. -/
def spoolSpecResult (printer_name : String) (env : SpoolEnv) : Except String Unit :=
  match firstFailure env with
  | none => .ok ()
  | some s => .error (stepMsg printer_name env s)

end Booking

namespace Booking

/-- C4: for every outcome of the OS serial-port query, `list_printers`
returns exactly one entry per reported device path (the path itself, in
order, unfiltered), and on a query error it returns the empty list; its
return type carries no error channel, so no error is ever propagated. -/
theorem list_printers_per_path_and_soft_failure :
    (∀ ports : List SerialPortInfo,
        list_printers (Except.ok ports) = ports.map (fun p => p.port_name)) ∧
    (∀ e : String, list_printers (Except.error e) = []) := by
  refine ⟨fun ports => ?_, fun e => rfl⟩
  simp only [list_printers]
  split
  · next h => simp_all [List.isEmpty_iff]
  · rfl

/-- C9: `test_printer_connection` returns either `Ok(true)` or an error;
`Ok(false)` is unreachable — unreachability is reported only through the
error channel. -/
theorem test_printer_connection_never_ok_false :
    ∀ (port : String) (osOpen : SerialSettings → Except String Unit),
      (test_printer_connection port osOpen).1 = Except.ok true ∨
      ∃ msg, (test_printer_connection port osOpen).1 = Except.error msg := by
  intro port osOpen
  unfold test_printer_connection
  cases osOpen (probeSettings port) with
  | ok _ => exact Or.inl rfl
  | error e => exact Or.inr ⟨connectErrMsg port e, rfl⟩

/-- C5: the probe opens the serial device with exactly baud 9600, 8 data
bits, no parity, 1 stop bit, no flow control and a 1000 ms timeout; it
returns `Ok(true)` exactly when the open succeeds (releasing the handle),
performs no write on any path, and its failure message contains both the
probed port address and the OS error text. -/
theorem test_printer_connection_probe_contract :
    ∀ (port : String) (osOpen : SerialSettings → Except String Unit)
      (e : String),
      probeSettings port =
        { path := port, baud_rate := 9600, data_bits := DataBits.eight,
          parity := Parity.none, stop_bits := StopBits.one,
          flow_control := FlowControl.none, timeout_ms := 1000 } ∧
      (test_printer_connection port osOpen =
        match osOpen (probeSettings port) with
        | .ok _ =>
            (Except.ok true, [SerialOp.openOp (probeSettings port), SerialOp.closeOp])
        | .error err =>
            (Except.error (connectErrMsg port err),
             [SerialOp.openOp (probeSettings port)])) ∧
      (∀ op ∈ (test_printer_connection port osOpen).2, ∀ bs, op ≠ SerialOp.writeOp bs) ∧
      strContains (connectErrMsg port e) port = true ∧
      strContains (connectErrMsg port e) e = true := by
  intro port osOpen e
  refine ⟨rfl, ?_, ?_, ?_, ?_⟩
  · unfold test_printer_connection
    cases osOpen (probeSettings port) <;> rfl
  · intro op hop bs
    cases h : osOpen (probeSettings port) with
    | ok u =>
      simp [test_printer_connection, h] at hop
      rcases hop with h1 | h1 <;> simp [h1]
    | error err =>
      simp [test_printer_connection, h] at hop
      simp [hop]
  · simp only [strContains, connectErrMsg, decide_eq_true_eq]
    exact ⟨"Failed to connect to printer on port ".data, (": " ++ e).data, by
      simp [String.data_append]⟩
  · simp only [strContains, connectErrMsg, decide_eq_true_eq]
    exact ⟨("Failed to connect to printer on port " ++ port ++ ": ").data, [], by
      simp [String.data_append]⟩

end Booking

namespace Booking

/-- C2: in `print_ticket` each of the six steps can fail independently; the
result is success exactly when all six succeed and otherwise the error of
the first failing step, naming the step and its OS error code; the trace
shows that a failing open attempts no document or page step at all, that
whenever the printer was opened the last API call is `ClosePrinter`, and
that each forward step is attempted exactly when all earlier steps
succeeded. -/
theorem print_ticket_step_failure_contract :
    ∀ (td pn : String) (env : SpoolEnv),
      (print_ticket td pn env).1 = spoolSpecResult pn env ∧
      (env.ok .openP = false → (print_ticket td pn env).2 = [SpoolOp.openPrinter]) ∧
      (env.ok .openP = true →
        (print_ticket td pn env).2.getLast? = some SpoolOp.closePrinter) ∧
      (SpoolOp.startDocPrinter ∈ (print_ticket td pn env).2 ↔
        env.ok .openP = true) ∧
      (SpoolOp.startPagePrinter ∈ (print_ticket td pn env).2 ↔
        env.ok .openP = true ∧ env.ok .startDoc = true) ∧
      (SpoolOp.writePrinter td.utf8ByteSize ∈ (print_ticket td pn env).2 ↔
        env.ok .openP = true ∧ env.ok .startDoc = true ∧
          env.ok .startPage = true) := by
  intro td pn env
  cases h1 : env.ok .openP <;> cases h2 : env.ok .startDoc <;>
    cases h3 : env.ok .startPage <;> cases h4 : env.ok .write <;>
    cases h5 : env.ok .endPage <;> cases h6 : env.ok .endDoc <;>
    simp [print_ticket, spoolSpecResult, firstFailure, stepMsg, h1, h2, h3, h4, h5, h6]

/-- Environment in which every spooler API call reports success but the
device reports zero bytes written. -/
def shortWriteEnv : SpoolEnv :=
  { ok := fun _ => true, errCode := fun _ => 0, bytesWritten := 0 }

/-- C1 counterexample: with every API call succeeding and `BytesWritten = 0`
on a 2-byte payload, `print_ticket` still returns success — the code never
compares `BytesWritten` to the payload length, so a reported short write is
not turned into a `PartialWrite` error. -/
theorem print_ticket_short_write_counterexample :
    (print_ticket "AB" "POS-80" shortWriteEnv).1 = Except.ok () ∧
    shortWriteEnv.bytesWritten < "AB".utf8ByteSize := by
  exact ⟨rfl, by decide⟩

/-- C1 amended: `print_ticket`'s outcome is determined solely by the boolean
results of the six spooler API calls — it is success iff all six report
success — and is entirely independent of the `BytesWritten` count the
device reports, so no `PartialWrite` classification exists on this path. -/
theorem print_ticket_success_iff_all_steps :
    ∀ (td pn : String) (env : SpoolEnv) (n : Nat),
      ((print_ticket td pn env).1 = Except.ok () ↔
        (env.ok .openP && env.ok .startDoc && env.ok .startPage &&
         env.ok .write && env.ok .endPage && env.ok .endDoc) = true) ∧
      print_ticket td pn { env with bytesWritten := n } =
        print_ticket td pn env := by
  intro td pn env n
  constructor
  · cases h1 : env.ok .openP <;> cases h2 : env.ok .startDoc <;>
      cases h3 : env.ok .startPage <;> cases h4 : env.ok .write <;>
      cases h5 : env.ok .endPage <;> cases h6 : env.ok .endDoc <;>
      simp [print_ticket, h1, h2, h3, h4, h5, h6]
  · cases env
    rfl

end Booking

namespace Booking

/-- Result of a launched child process, as `print_ticket_raw` reads it:
`output.status.success()` and the captured standard-error text. -/
structure ShellOutput where
  exitSuccess : Bool
  stderr : String
  deriving DecidableEq

/-- Outcomes the OS reports to `print_ticket_raw`: whether the `temp`
directory already exists, the results of `fs::create_dir`, `fs::write` and
`Command::output` (error = the child could not be launched), and the
millisecond timestamp used in the temp-file name. -/
structure RawEnv where
  tempDirExists : Bool
  createDir : Except String Unit
  writeFile : Except String Unit
  shell : Except String ShellOutput
  millis : Nat

/-- Trace entries: the file-system and process calls `print_ticket_raw`
performs. -/
inductive RawOp
  | createDirOp
  | writeFileOp (name : String)
  | shellOp
  | removeFileOp (name : String)
  deriving DecidableEq

/-- The temp-file path `temp/ticket_<millis>.txt` (main.rs lines 307-310). -/
def tempFileName (millis : Nat) : String :=
  "temp/ticket_" ++ toString millis ++ ".txt"

/-- `print_ticket_raw`, Windows cfg block (main.rs lines 292-344): create
the `temp` directory when missing (`?` propagates a failure), write the
payload to `temp/ticket_<millis>.txt` (`?` propagates a failure), run the
hidden PowerShell print command, then unconditionally `fs::remove_file`
the temp file (its result is discarded), and finally map the shell outcome
to the result.  The third component is the file-system state (the list of
existing file paths, starting from `fs0`; the modelled `remove_file`
removes the path). -/
def print_ticket_raw (ticket_data printer_name : String) (env : RawEnv)
    (fs0 : List String) : Except String Unit × List RawOp × List String :=
  let tf := tempFileName env.millis
  match (if env.tempDirExists then Except.ok () else env.createDir) with
  | .error e =>
      (.error ("Failed to create temp directory: " ++ e), [.createDirOp], fs0)
  | .ok _ =>
      let ops0 : List RawOp := if env.tempDirExists then [] else [.createDirOp]
      match env.writeFile with
      | .error e =>
          (.error ("Failed to write temp file: " ++ e),
           ops0 ++ [.writeFileOp tf], fs0)
      | .ok _ =>
          let ops := ops0 ++ [.writeFileOp tf, .shellOp, .removeFileOp tf]
          let fs2 := (tf :: fs0).filter (fun n => n ≠ tf)
          match env.shell with
          | .ok out =>
              if out.exitSuccess then (.ok (), ops, fs2)
              else (.error ("Printing failed: " ++ out.stderr), ops, fs2)
          | .error e =>
              (.error ("Failed to execute print command: " ++ e), ops, fs2)

end Booking

namespace Booking

/-- Removing every occurrence of `a` leaves a list in which `contains a`
is false. -/
theorem contains_filter_ne_eq_false (a : String) (l : List String) :
    (l.filter (fun n => n ≠ a)).contains a = false := by
  cases hc : (l.filter (fun n => n ≠ a)).contains a
  · rfl
  · obtain ⟨b, hb, hab⟩ := List.contains_iff_exists_mem_beq.mp hc
    have hba : a = b := eq_of_beq hab
    subst hba
    have := (List.mem_filter.mp hb).2
    simp at this

/-- C3: every `print_ticket_raw` run that reaches the shell invocation also
performs the `remove_file` on its temp file — whether the shell command
succeeded, exited nonzero, or could not be launched — and in the resulting
file-system state the `temp/ticket_<millis>.txt` file is gone. -/
theorem print_ticket_raw_always_deletes_temp :
    ∀ (td pn : String) (env : RawEnv) (fs0 : List String),
      RawOp.shellOp ∈ (print_ticket_raw td pn env fs0).2.1 →
      RawOp.removeFileOp (tempFileName env.millis) ∈
          (print_ticket_raw td pn env fs0).2.1 ∧
        ((print_ticket_raw td pn env fs0).2.2).contains
          (tempFileName env.millis) = false := by
  intro td pn env fs0 hshell
  have hcont := contains_filter_ne_eq_false (tempFileName env.millis)
    (tempFileName env.millis :: fs0)
  cases hd : (if env.tempDirExists then Except.ok () else env.createDir) with
  | error e => simp [print_ticket_raw, hd] at hshell
  | ok u =>
    cases hw : env.writeFile with
    | error e => simp [print_ticket_raw, hd, hw] at hshell
    | ok v =>
      cases hs : env.shell with
      | ok out =>
        cases hex : out.exitSuccess <;>
          simp [print_ticket_raw, hd, hw, hs, hex, hcont]
      | error e => simp [print_ticket_raw, hd, hw, hs, hcont]

/-- Concrete environment for the C3 witness: the temp directory exists, the
write succeeds, and the shell command cannot even be launched. -/
def rawShellFailEnv : RawEnv :=
  { tempDirExists := true
    createDir := Except.ok ()
    writeFile := Except.ok ()
    shell := Except.error "program not found"
    millis := 42 }

/-- C3 witness: in a run whose shell launch fails outright, the shell was
reached, the remove happened and no `temp/ticket_42.txt` remains. -/
theorem print_ticket_raw_always_deletes_temp_witness :
    RawOp.shellOp ∈ (print_ticket_raw "DATA" "POS-80" rawShellFailEnv ["a.txt"]).2.1 ∧
      (RawOp.removeFileOp (tempFileName 42) ∈
          (print_ticket_raw "DATA" "POS-80" rawShellFailEnv ["a.txt"]).2.1 ∧
        ((print_ticket_raw "DATA" "POS-80" rawShellFailEnv ["a.txt"]).2.2).contains
          (tempFileName 42) = false) :=
  ⟨by decide,
   print_ticket_raw_always_deletes_temp "DATA" "POS-80" rawShellFailEnv ["a.txt"]
     (by decide)⟩

end Booking

namespace Booking

/-- C7: once `print_ticket_raw` reaches the shell invocation, the child
process outcome alone determines the result: exit status zero yields
success, a nonzero status yields a failure carrying the captured
standard-error text, and a launch failure yields the distinct
invocation-failure error. -/
theorem print_ticket_raw_shell_status_determines_outcome :
    ∀ (td pn : String) (env : RawEnv) (fs0 : List String)
      (out : ShellOutput) (e : String),
      (if env.tempDirExists then Except.ok () else env.createDir) = Except.ok () →
      env.writeFile = Except.ok () →
      ((env.shell = Except.ok out →
          (print_ticket_raw td pn env fs0).1 =
            (if out.exitSuccess then Except.ok ()
             else Except.error ("Printing failed: " ++ out.stderr))) ∧
        (env.shell = Except.error e →
          (print_ticket_raw td pn env fs0).1 =
            Except.error ("Failed to execute print command: " ++ e))) := by
  intro td pn env fs0 out e hd hw
  constructor
  · intro hs
    cases hex : out.exitSuccess <;> simp [print_ticket_raw, hd, hw, hs, hex]
  · intro hs
    simp [print_ticket_raw, hd, hw, hs]

/-- Concrete environment for the C7 witness: the temp directory is created,
the write succeeds, and the shell command exits with a nonzero status. -/
def rawShellNonzeroEnv : RawEnv :=
  { tempDirExists := false
    createDir := Except.ok ()
    writeFile := Except.ok ()
    shell := Except.ok { exitSuccess := false, stderr := "spooler offline" }
    millis := 7 }

/-- C7 witness: the contract instantiated at a run whose shell exits
nonzero with stderr text "spooler offline". -/
theorem print_ticket_raw_shell_status_witness :
    (rawShellNonzeroEnv.shell =
        Except.ok { exitSuccess := false, stderr := "spooler offline" } →
      (print_ticket_raw "DATA" "POS-80" rawShellNonzeroEnv []).1 =
        (if ({ exitSuccess := false, stderr := "spooler offline" } :
              ShellOutput).exitSuccess then Except.ok ()
         else Except.error ("Printing failed: " ++
            ({ exitSuccess := false, stderr := "spooler offline" } :
              ShellOutput).stderr))) ∧
    (rawShellNonzeroEnv.shell = Except.error "no powershell" →
      (print_ticket_raw "DATA" "POS-80" rawShellNonzeroEnv []).1 =
        Except.error ("Failed to execute print command: " ++ "no powershell")) :=
  print_ticket_raw_shell_status_determines_outcome "DATA" "POS-80"
    rawShellNonzeroEnv [] { exitSuccess := false, stderr := "spooler offline" }
    "no powershell" rfl rfl

/-- C10: when creating the missing temp directory fails, `print_ticket_raw`
returns that error having performed only the create-dir call; when the
payload write fails, it returns that error and its trace ends at the write —
the shell print command is never invoked on either early failure. -/
theorem print_ticket_raw_early_failure_no_shell :
    ∀ (td pn : String) (env : RawEnv) (fs0 : List String) (e : String),
      (env.tempDirExists = false → env.createDir = Except.error e →
        (print_ticket_raw td pn env fs0).1 =
            Except.error ("Failed to create temp directory: " ++ e) ∧
          (print_ticket_raw td pn env fs0).2.1 = [RawOp.createDirOp]) ∧
      ((if env.tempDirExists then Except.ok () else env.createDir) = Except.ok () →
        env.writeFile = Except.error e →
        (print_ticket_raw td pn env fs0).1 =
            Except.error ("Failed to write temp file: " ++ e) ∧
          (print_ticket_raw td pn env fs0).2.1 =
            (if env.tempDirExists then [] else [RawOp.createDirOp]) ++
              [RawOp.writeFileOp (tempFileName env.millis)]) := by
  intro td pn env fs0 e
  constructor
  · intro hte hcd
    simp [print_ticket_raw, hte, hcd]
  · intro hd hw
    simp [print_ticket_raw, hd, hw]

end Booking

namespace Booking

/-- A printer registered with the OS, as `Get-Printer` reports it: a Name
and a PortName. -/
structure WinPrinter where
  name : String
  port : String
  deriving DecidableEq

/-- Lower-casing, character by character (the structural equivalent of
`String.toLower`, written so that it evaluates inside the kernel). -/
def lowerStr (s : String) : String :=
  ⟨s.data.map Char.toLower⟩

/-- A string whose Rust `trim()` is nonempty: some character is not
whitespace. -/
def nameNonblank (s : String) : Bool :=
  s.data.any (fun c => !c.isWhitespace)

/-- PowerShell `-like '*pat*'`: case-insensitive substring match. -/
def psLike (value pat : String) : Bool :=
  strContains (lowerStr value) (lowerStr pat)

/-- The `Where-Object` filter inside `list_usb_printers` (main.rs line 100):
PortName like USB, or Name like USB, EPSON or Receipt. -/
def usbWhere (p : WinPrinter) : Bool :=
  psLike p.port "USB" || psLike p.name "USB" || psLike p.name "EPSON" ||
    psLike p.name "Receipt"

/-- The `Where-Object` filter inside `list_com_printers` (main.rs line 385):
PortName like COM. -/
def comWhere (p : WinPrinter) : Bool :=
  psLike p.port "COM"

/-- The entry format both listing loops build from a CSV row
(main.rs lines 122 and 402). -/
def printerEntry (p : WinPrinter) : String :=
  p.name ++ " (" ++ p.port ++ ")"

/-- `list_usb_printers`, Windows block (main.rs lines 89-142), over the OS
printer registry `reg`: the PowerShell query keeps registry entries passing
`usbWhere`; the Rust loop then skips rows whose trimmed name is empty
(`nameNonblank`) and formats the rest. -/
def list_usb_printers (reg : List WinPrinter) : List String :=
  ((reg.filter usbWhere).filter (fun p => nameNonblank p.name)).map printerEntry

/-- `list_com_printers`, Windows block (main.rs lines 377-416): same shape
with the COM filter. -/
def list_com_printers (reg : List WinPrinter) : List String :=
  ((reg.filter comWhere).filter (fun p => nameNonblank p.name)).map printerEntry

/-- Registry with one printer named EPSON on port COM1: its port matches
only "com", yet it appears in both listings (the USB filter matched its
name). -/
def usbComCexReg : List WinPrinter := [{ name := "EPSON", port := "COM1" }]

end Booking

namespace Booking

/-- C6 counterexample: in a registry whose single device has port "COM1" —
a port that does not simultaneously match "usb" and "com" — the USB-like
and COM-like listings still intersect, because the USB-like filter also
matches the device name "EPSON".  The claim's premise holds and its
conclusion fails. -/
theorem usb_com_intersection_counterexample :
    (∀ p ∈ usbComCexReg,
        ¬(psLike p.port "usb" = true ∧ psLike p.port "com" = true)) ∧
    "EPSON (COM1)" ∈ list_usb_printers usbComCexReg ∧
    "EPSON (COM1)" ∈ list_com_printers usbComCexReg :=
  ⟨by decide, by decide, by decide⟩

/-- C6 amended: the two listings are disjoint whenever no registry entry
satisfies both the USB-like filter (port or name matches case-insensitive
"usb", "epson" or "receipt") and the COM-like filter (port matches "com")
at once, provided distinct entries have distinct "name (port)" labels. -/
theorem usb_com_listings_disjoint :
    ∀ (reg : List WinPrinter),
      (∀ p ∈ reg, ¬(usbWhere p = true ∧ comWhere p = true)) →
      (∀ p ∈ reg, ∀ q ∈ reg, printerEntry p = printerEntry q → p = q) →
      ∀ s ∈ list_usb_printers reg, (list_com_printers reg).contains s = false := by
  intro reg hdisj hinj s hs
  cases hc : (list_com_printers reg).contains s
  · rfl
  · exfalso
    obtain ⟨b, hb, hsb⟩ := List.contains_iff_exists_mem_beq.mp hc
    have hsb2 : s = b := eq_of_beq hsb
    subst hsb2
    simp only [list_usb_printers, List.mem_map, List.mem_filter] at hs
    simp only [list_com_printers, List.mem_map, List.mem_filter] at hb
    obtain ⟨p, ⟨⟨hpreg, hpu⟩, hpn⟩, hps⟩ := hs
    obtain ⟨q, ⟨⟨hqreg, hqc⟩, hqn⟩, hqs⟩ := hb
    have hpq : p = q := hinj p hpreg q hqreg (by rw [hps, hqs])
    subst hpq
    exact hdisj p hpreg ⟨hpu, hqc⟩

/-- Registry for the C6 witness: one USB-attached receipt printer and one
COM-attached printer; no entry passes both filters and labels differ. -/
def usbComRegW : List WinPrinter :=
  [{ name := "EPSON TM-T81", port := "USB001" },
   { name := "Generic", port := "COM3" }]

/-- C6 witness: the amended disjointness applied to `usbComRegW` at the
USB entry's label, every hypothesis discharged by evaluation. -/
theorem usb_com_listings_disjoint_witness :
    (list_com_printers usbComRegW).contains "EPSON TM-T81 (USB001)" = false :=
  usb_com_listings_disjoint usbComRegW (by decide) (by decide)
    "EPSON TM-T81 (USB001)" (by decide)

/-- C8: the non-Windows cfg block of `print_ticket` returns the
platform-mismatch error immediately, with an empty OS-call trace.  The
sibling block of `print_ticket_raw` (main.rs lines 346-349) has the same
body, but the source carries a second non-Windows block after it
(main.rs lines 351-374) evaluating to a `Vec<String>`, which cannot be the
function's `Result<(), String>` value — see the claim's record. -/
theorem print_ticket_nonwindows_platform_error :
    ∀ (td pn : String),
      print_ticket_nonwindows td pn =
        (Except.error "Printing is only supported on Windows",
         ([] : List SpoolOp)) :=
  fun _ _ => rfl

end Booking
